import Mathlib

/-!
Shallow embedding of the OAuth sign-in flow of the flasker repository
(src/flasker/core/oauth.py) and project bootstrap (src/flasker/project.py).

HTTP requests are represented by their query-parameter association lists
(werkzeug MultiDict indexing returns the first value for a key, raising
BadRequestKeyError when absent). The identity provider is an oracle
supplying the keys of the token-info JSON response and the user-info
JSON response for each token. Python exceptions are modelled by an
explicit error type; handler side effects (session login state, outbound
network calls, warning log entries, audit log entries) are recorded in
the handler result.
-/

namespace Flasker

/-- Association-list lookup, first match wins (matches both werkzeug
MultiDict indexing and an already-deduplicated Python dict). -/
def assocGet {β : Type} : List (String × β) → String → Option β
  | [], _ => none
  | (k, v) :: t, k0 => if k0 = k then some v else assocGet t k0

/-- Python dict assignment d[k] = v: replace the value in place if the key
exists, otherwise append the binding. -/
def assocSet {β : Type} : List (String × β) → String → β → List (String × β)
  | [], k, v => [(k, v)]
  | (k1, v1) :: t, k, v =>
      if k1 = k then (k, v) :: t else (k1, v1) :: assocSet t k v

/-- Python dict.update(new): assign every binding of new into old. -/
def dictUpdate {β : Type} (old new : List (String × β)) : List (String × β) :=
  new.foldl (fun acc kv => assocSet acc kv.1 kv.2) old

theorem assocGet_assocSet {β : Type} (l : List (String × β)) (k k0 : String) (v : β) :
    assocGet (assocSet l k v) k0 = if k0 = k then some v else assocGet l k0 := by
  induction l with
  | nil => simp [assocSet, assocGet]
  | cons hd t ih =>
      obtain ⟨k1, v1⟩ := hd
      by_cases h1 : k1 = k
      · subst h1
        by_cases h0 : k0 = k1 <;> simp [assocSet, assocGet, h0]
      · by_cases h0 : k0 = k1
        · subst h0
          simp [assocSet, assocGet, h1, Ne.symm h1]
        · simp [assocSet, assocGet, h0, h1, ih]

theorem assocGet_eq_none_of_not_mem {β : Type} (l : List (String × β)) (k : String)
    (h : k ∉ l.map Prod.fst) : assocGet l k = none := by
  induction l with
  | nil => rfl
  | cons hd t ih =>
      simp only [List.map_cons, List.mem_cons] at h
      push_neg at h
      simp [assocGet, h.1, ih h.2]

theorem assocGet_append {β : Type} (l1 l2 : List (String × β)) (k : String) :
    assocGet (l1 ++ l2) k = ((assocGet l1 k).rec (assocGet l2 k) fun v => some v) := by
  induction l1 with
  | nil => simp [assocGet]
  | cons hd t ih =>
      obtain ⟨k1, v1⟩ := hd
      by_cases h : k = k1 <;> simp [assocGet, h, ih]

theorem assocGet_dictUpdate {β : Type} (old new : List (String × β)) (k : String)
    (h : (new.map Prod.fst).Nodup) :
    assocGet (dictUpdate old new) k =
      ((assocGet new k).rec (assocGet old k) fun v => some v) := by
  induction new generalizing old with
  | nil => simp [dictUpdate, assocGet]
  | cons hd t ih =>
      obtain ⟨k1, v1⟩ := hd
      simp only [List.map_cons, List.nodup_cons] at h
      have step : dictUpdate old ((k1, v1) :: t) = dictUpdate (assocSet old k1 v1) t := rfl
      rw [step, ih _ h.2]
      by_cases hk : k = k1
      · subst hk
        have ht : assocGet t k = none :=
          assocGet_eq_none_of_not_mem t k h.1
        simp [ht, assocGet, assocGet_assocSet]
      · simp [assocGet, hk, assocGet_assocSet]

-- URL encoding (urllib.urlencode / quote_plus, Python 2)
-- =====================================================

/-- A char Python 2 urllib never percent-encodes: letters, digits, `_`, `.`, `-`. -/
def alwaysSafe (c : Char) : Bool :=
  (('A' ≤ c && c ≤ 'Z') || ('a' ≤ c && c ≤ 'z') || ('0' ≤ c && c ≤ '9')
    || c = '_' || c = '.' || c = '-')

/-- Uppercase hex digit of a value below 16. -/
def hexDigit (n : Nat) : Char :=
  if n < 10 then Char.ofNat (n + 48) else Char.ofNat (n + 55)

/-- Percent-encoding of one byte, uppercase hex as in Python 2 urllib.quote. -/
def percentByte (b : Nat) : String :=
  String.mk ['%', hexDigit (b / 16 % 16), hexDigit (b % 16)]

/-- urllib.quote_plus on one character: space becomes `+`, safe characters
pass through, anything else is percent-encoded byte-wise (UTF-8). -/
def quotePlusChar (c : Char) : String :=
  if c = ' ' then "+"
  else if alwaysSafe c then String.singleton c
  else String.join ((String.utf8EncodeChar c).map fun b => percentByte b.toNat)

/-- urllib.quote_plus with default (empty) safe set, as urlencode applies it
to every key and value. -/
def quote_plus (s : String) : String :=
  String.join (s.toList.map quotePlusChar)

/-- urllib.urlencode over the parameter list: quote_plus each key and value,
join `k=v` pieces with `&`. -/
def urlencode : List (String × String) → String
  | [] => ""
  | [(k, v)] => quote_plus k ++ "=" ++ quote_plus v
  | (k, v) :: rest => quote_plus k ++ "=" ++ quote_plus v ++ "&" ++ urlencode rest

-- Google OAuth API helpers (src/flasker/core/oauth.py)
-- ====================================================

namespace OAuth

def ENDPOINTS_get_token_or_code : String := "https://accounts.google.com/o/oauth2/auth"
def ENDPOINTS_validate_token : String := "https://www.googleapis.com/oauth2/v1/tokeninfo"
def ENDPOINTS_get_user_info : String := "https://www.googleapis.com/oauth2/v2/userinfo"
def SCOPES_email : String := "https://www.googleapis.com/auth/userinfo.email"
def RESPONSE_TYPE : String := "token"

end OAuth

/-- Request-independent context: request.url_root and the OAuth client id
installed by make(credentials). -/
structure Ctx where
  urlRoot : String
  clientId : String

/-- Query parameters of the incoming request, as (key, value) pairs. -/
abbrev Args := List (String × String)

/-- get_params: the authorization-request parameter dictionary, in source
order; state echoes the `next` request argument and defaults to `/`. -/
def get_params (ctx : Ctx) (args : Args) : List (String × String) :=
  let state := (assocGet args "next").getD "/"
  [("scope", OAuth.SCOPES_email),
   ("redirect_uri", ctx.urlRoot ++ "oauth2callback"),
   ("response_type", OAuth.RESPONSE_TYPE),
   ("state", state),
   ("client_id", ctx.clientId)]

/-- get_google_login_url: authorization endpoint plus urlencoded parameters. -/
def get_google_login_url (ctx : Ctx) (args : Args) : String :=
  OAuth.ENDPOINTS_get_token_or_code ++ "?" ++ urlencode (get_params ctx args)

-- Provider oracle and outbound calls
-- ==================================

/-- The identity provider, seen through the two JSON responses the code
reads: the key set of the token-info response and the user-info response
object for each token. -/
structure Provider where
  tokeninfoKeys : String → List String
  userinfo : String → List (String × String)

/-- One outbound network round trip issued by the handler. -/
inductive NetCall
  | tokeninfo (token : String)
  | userinfo (token : String)
deriving DecidableEq, Repr

/-- validate_token: token is valid iff the token-info response has no
`error` key. (The request itself is recorded by the caller.) -/
def validate_token (P : Provider) (token : String) : Bool :=
  if "error" ∈ P.tokeninfoKeys token then false else true

/-- get_user_info_from_token: the decoded user-info JSON object. -/
def get_user_info_from_token (P : Provider) (token : String) : List (String × String) :=
  P.userinfo token

-- User model
-- ==========

/-- User: id is the email. -/
structure User where
  id : String
deriving DecidableEq, Repr

/-- The in-memory user directory, User.__all__: email to User. -/
abbrev UserDir := List (String × User)

/-- User.populate: dict((email, User(email)) for email in authorized_emails). -/
def User.populate (authorized_emails : List String) : UserDir :=
  authorized_emails.map fun email => (email, User.mk email)

/-- User.get_from_id: directory lookup, None when absent. -/
def User.get_from_id (dir : UserDir) (id : String) : Option User :=
  assocGet dir id

/-- Whitespace for Python str.strip: space, tab, newline, carriage return,
vertical tab, form feed. -/
def pyWhitespace (c : Char) : Bool :=
  c = ' ' || c = '\t' || c = '\n' || c = '\r' || c = '\x0b' || c = '\x0c'

/-- Python str.strip (whitespace from both ends). -/
def pyStrip (s : String) : String :=
  String.mk (((s.toList.dropWhile pyWhitespace).reverse.dropWhile pyWhitespace).reverse)

/-- Split a character list at every occurrence of sep, keeping empty pieces
(Python str.split with an explicit separator). -/
def splitChars (sep : Char) : List Char → List (List Char)
  | [] => [[]]
  | c :: t =>
      match splitChars sep t with
      | [] => if c = sep then [[], []] else [[c]]
      | h :: r => if c = sep then [] :: h :: r else (c :: h) :: r

/-- Python s.split(sep) for a one-character separator. -/
def pySplit (s : String) (sep : Char) : List String :=
  (splitChars sep s.toList).map String.mk

/-- The generator populating User.__all__ at import time: split the
AUTHORIZED_EMAILS config value on commas, strip each piece, drop empties. -/
def authorizedList (value : String) : List String :=
  ((pySplit value ',').map pyStrip).filter (fun e => e ≠ "")

-- Handlers
-- ========

/-- Python exceptions the modelled code can raise. -/
inductive PyError
  | projectImportError (msg : String)
  | keyError (key : String)
  | badRequestKeyError (key : String)
  | attributeError
deriving DecidableEq, Repr

/-- An HTTP response: a rendered template or a redirect. -/
inductive Response
  | render (template header color signInUrl : String)
  | redirectTo (location : String)
deriving DecidableEq, Repr

instance {ε α : Type} [DecidableEq ε] [DecidableEq α] : DecidableEq (Except ε α) :=
  fun a b =>
    match a, b with
    | .ok x, .ok y =>
        if h : x = y then .isTrue (by rw [h]) else .isFalse (by simp [h])
    | .error x, .error y =>
        if h : x = y then .isTrue (by rw [h]) else .isFalse (by simp [h])
    | .ok _, .error _ => .isFalse nofun
    | .error _, .ok _ => .isFalse nofun

/-- Result of running a handler: the response (or the exception that
escaped), the login session after the request (the id of the signed-in user),
the outbound network calls issued, warning-level log entries, and
audit (user.info) log entries. -/
structure HandlerResult where
  outcome : Except PyError Response
  session : Option String
  calls : List NetCall
  warnings : List String
  audits : List String
deriving DecidableEq, Repr

/-- catch_token handler, line by line from src/flasker/core/oauth.py:
read the `access_token` request argument (BadRequestKeyError when absent);
validate the token against the token-info endpoint; on failure re-render
the sign-in prompt; otherwise fetch user info, look the email up in the
directory; on hit call login_user, log `Signed in.` and redirect to
the `state` request argument; on miss log a warning naming the email and
re-render the sign-in prompt. -/
def catch_token (ctx : Ctx) (P : Provider) (dir : UserDir) (args : Args)
    (session : Option String) : HandlerResult :=
  match assocGet args "access_token" with
  | none =>
      { outcome := .error (.badRequestKeyError "access_token"),
        session := session, calls := [], warnings := [], audits := [] }
  | some token =>
      if validate_token P token = false then
        { outcome := .ok (.render "sign_in_out.html" "Invalid token" "danger"
            (get_google_login_url ctx args)),
          session := session, calls := [.tokeninfo token],
          warnings := ["Access token is invalid."], audits := [] }
      else
        match assocGet (get_user_info_from_token P token) "email" with
        | none =>
            { outcome := .error (.keyError "email"), session := session,
              calls := [.tokeninfo token, .userinfo token],
              warnings := [], audits := [] }
        | some email =>
            match User.get_from_id dir email with
            | some user =>
                match assocGet args "state" with
                | some st =>
                    { outcome := .ok (.redirectTo st), session := some user.id,
                      calls := [.tokeninfo token, .userinfo token],
                      warnings := [], audits := ["Signed in."] }
                | none =>
                    { outcome := .error (.badRequestKeyError "state"),
                      session := some user.id,
                      calls := [.tokeninfo token, .userinfo token],
                      warnings := [], audits := ["Signed in."] }
            | none =>
                { outcome := .ok (.render "sign_in_out.html" "Unauthorized" "warning"
                    (get_google_login_url ctx args)),
                  session := session,
                  calls := [.tokeninfo token, .userinfo token],
                  warnings := [email ++ " tried to sign in."], audits := [] }

/-- sign_out handler: when a user is authenticated, log `Signed out.` and
log the user out; either way render the goodbye prompt with a fresh
authorization URL. -/
def sign_out (ctx : Ctx) (args : Args) (session : Option String) : HandlerResult :=
  match session with
  | some _ =>
      { outcome := .ok (.render "sign_in_out.html" "Goodbye" "success"
          (get_google_login_url ctx args)),
        session := none, calls := [], warnings := [], audits := ["Signed out."] }
  | none =>
      { outcome := .ok (.render "sign_in_out.html" "Goodbye" "success"
          (get_google_login_url ctx args)),
        session := none, calls := [], warnings := [], audits := [] }

-- Project bootstrap (src/flasker/project.py)
-- ===========================================

/-- A parsed configuration value. -/
inductive ConfValue
  | b (x : Bool)
  | i (n : Nat)
  | s (x : String)
deriving DecidableEq, Repr

/-- ASCII lowercase of one character (Python 2 str.lower). -/
def pyLowerChar (c : Char) : Char :=
  if 'A' ≤ c && c ≤ 'Z' then Char.ofNat (c.toNat + 32) else c

/-- Python 2 str.lower. -/
def pyLower (s : String) : String :=
  String.mk (s.toList.map pyLowerChar)

/-- ASCII decimal digit test. -/
def pyIsDigit (c : Char) : Bool := '0' ≤ c && c ≤ '9'

/-- Decimal value of a digit string. -/
def digitsToNat (l : List Char) : Nat :=
  l.foldl (fun a c => a * 10 + (c.toNat - 48)) 0

/-- Modelled from the spec: flasker/util.py (the convert helper) is not
under src/; per the spec, value strings are coerced by pattern,
case-insensitive `true` or `false` to boolean, digit strings to integer,
anything else kept as string. -/
def convert (v : String) : ConfValue :=
  if pyLower v = "true" then .b true
  else if pyLower v = "false" then .b false
  else if v ≠ "" && v.toList.all pyIsDigit then .i (digitsToNat v.toList)
  else .s v

/-- Python truthiness of a configuration value. -/
def ConfValue.truthy : ConfValue → Bool
  | .b x => x
  | .i n => decide (n ≠ 0)
  | .s x => decide (x ≠ "")

abbrev ConfSection := List (String × ConfValue)
abbrev Config := List (String × ConfSection)

namespace Project

/-- The compiled-in defaults, Project.config class attribute. -/
def config : Config :=
  [("PROJECT",
     [("NAME", .s ""),
      ("DOMAIN", .s ""),
      ("SUBDOMAIN", .s ""),
      ("MODULES", .s ""),
      ("FLASK_ROOT_FOLDER", .s "app"),
      ("FLASK_STATIC_FOLDER", .s "static"),
      ("FLASK_TEMPLATE_FOLDER", .s "templates"),
      ("COMMIT_ON_TEARDOWN", .b true)]),
   ("ENGINE", [("URL", .s "sqlite://")]),
   ("FLASK", [("SECRET_KEY", .s "a_default_unsafe_key")]),
   ("CELERY",
     [("BROKER_URL", .s "redis://"),
      ("CELERY_RESULT_BACKEND", .s "redis://"),
      ("CELERY_SEND_EVENTS", .b true)])]

end Project

/-- What opening and INI-parsing the configuration file yields: an IOError,
or the raw section/key/value structure (SafeConfigParser with case-sensitive
option names is the external parser). -/
inductive FileRead
  | unreadable
  | content (sections : List (String × List (String × String)))

/-- The value conversion applied to every parsed section in _parse_config. -/
def convertSections (secs : List (String × List (String × String))) : Config :=
  secs.map fun sec => (sec.1, sec.2.map fun kv => (kv.1, convert kv.2))

/-- Project._parse_config: raise ProjectImportError when the file cannot be
read; convert every value; then evaluate the NAME key of the PROJECT
section, which
raises KeyError when the section or the key is absent, and raise
ProjectImportError when the name is falsy. -/
def parse_config (config_path : String) (file : FileRead) : Except PyError Config :=
  match file with
  | .unreadable =>
      .error (.projectImportError
        ("Unable to parse configuration file at " ++ config_path ++ "."))
  | .content secs =>
      let conf : Config := convertSections secs
      match assocGet conf "PROJECT" with
      | none => .error (.keyError "PROJECT")
      | some proj =>
          match assocGet proj "NAME" with
          | none => .error (.keyError "NAME")
          | some name =>
              if name.truthy then .ok conf
              else .error (.projectImportError "Missing project name.")

/-- The merge loop of Project.__init__: for each parsed section in turn,
update the matching section of the accumulated configuration key by key,
or add an unknown section wholesale. -/
def mergeConfig (base : Config) : Config → Config
  | [] => base
  | sec :: rest =>
      match assocGet base sec.1 with
      | some oldSec => mergeConfig (assocSet base sec.1 (dictUpdate oldSec sec.2)) rest
      | none => mergeConfig (base ++ [(sec.1, sec.2)]) rest

/-- Nested configuration lookup, conf[s][k] when both levels exist. -/
def configGet (c : Config) (s k : String) : Option ConfValue :=
  match assocGet c s with
  | none => none
  | some sec => assocGet sec k

/-- A word character for Python re \W on a byte string: [a-zA-Z0-9_]. -/
def wordChar (c : Char) : Bool :=
  (('A' ≤ c && c ≤ 'Z') || ('a' ≤ c && c ≤ 'z') || ('0' ≤ c && c ≤ '9') || c = '_')

/-- Worker for the `\W+` to `_` substitution: the flag records whether the previous
character belonged to a non-word run already replaced. -/
def subNonWordAux : Bool → List Char → List Char
  | _, [] => []
  | inRun, c :: t =>
      if wordChar c then c :: subNonWordAux false t
      else if inRun then subNonWordAux true t
      else '_' :: subNonWordAux true t

/-- re.sub of `\W+` with `_`: replace every maximal run of non-word characters
with a single underscore. -/
def subNonWord (l : List Char) : List Char :=
  subNonWordAux false l

/-- Domain derivation in Project.__init__: the PROJECT DOMAIN value when
truthy, else the sanitized lowercase name (AttributeError when NAME is not
a string, since only strings have .lower()). -/
def deriveDomain (merged : Config) : Except PyError ConfValue :=
  match assocGet merged "PROJECT" with
  | none => .error (.keyError "PROJECT")
  | some proj =>
      match assocGet proj "DOMAIN" with
      | none => .error (.keyError "DOMAIN")
      | some dv =>
          if dv.truthy then .ok dv
          else
            match assocGet proj "NAME" with
            | none => .error (.keyError "NAME")
            | some nv =>
                match nv with
                | .s name => .ok (.s (String.mk (subNonWord (pyLower name).toList)))
                | _ => .error .attributeError

/-- The shared Project.__state once registration completed: the merged
configuration and the derived domain. Path bookkeeping (root_dir,
subdomain) and the flask/celery/database components built by _make are
external collaborators and are not part of the embedding. -/
structure RegState where
  config : Config
  domain : ConfValue
deriving DecidableEq, Repr

/-- Process-wide bootstrap state: the Borg-shared registered state, whether
the thread-local _current_project is set, and how many times the
registration block has run. -/
structure ProcState where
  shared : Option RegState
  currentIsSet : Bool
  registrations : Nat
deriving DecidableEq, Repr

/-- State before any Project construction in the process. -/
def initialProcState : ProcState :=
  { shared := none, currentIsSet := false, registrations := 0 }

/-- Project.__init__: adopt the shared state and set the thread-local
current project; when not yet registered, require a config path, parse,
merge over the defaults, derive the domain, and mark registered; when
already registered, skip the whole registration block. -/
def project_init (fs : String → FileRead) (config_path : Option String)
    (st : ProcState) : Except PyError Unit × ProcState :=
  let st1 := { st with currentIsSet := true }
  match st1.shared with
  | some _ => (.ok (), st1)
  | none =>
      match config_path with
      | none =>
          (.error (.projectImportError
             ("Project instantiation outside the Flasker command line tool "
              ++ "requires a configuration file path.")), st1)
      | some p =>
          match parse_config p (fs p) with
          | .error e => (.error e, st1)
          | .ok conf =>
              let merged := mergeConfig Project.config conf
              match deriveDomain merged with
              | .error e => (.error e, st1)
              | .ok dom =>
                  (.ok (),
                   { st1 with shared := some { config := merged, domain := dom },
                              registrations := st1.registrations + 1 })

/-- _get_current_project: reuse the thread-local project when set, else
construct Project() with no path. -/
def get_current_project (fs : String → FileRead) (st : ProcState) :
    Except PyError Unit × ProcState :=
  if st.currentIsSet then (.ok (), st) else project_init fs none st

/-- A sequence of Project constructions in one process. -/
def runInits (fs : String → FileRead) (calls : List (Option String))
    (st : ProcState) : ProcState :=
  calls.foldl (fun s c => (project_init fs c s).2) st

-- Directory lemmas
-- ================

theorem assocGet_populate (l : List String) (e : String) :
    assocGet (User.populate l) e = if e ∈ l then some (User.mk e) else none := by
  induction l with
  | nil => simp [User.populate, assocGet]
  | cons a t ih =>
      by_cases h : e = a
      · subst h
        simp [User.populate, assocGet]
      · simp only [User.populate] at ih
        simp [User.populate, assocGet, h, ih]

-- Merge lemmas
-- ============

theorem assocGet_mergeConfig (parsed : Config) (base : Config) (s : String)
    (h : (parsed.map Prod.fst).Nodup) :
    assocGet (mergeConfig base parsed) s =
      match assocGet parsed s, assocGet base s with
      | some psec, some bsec => some (dictUpdate bsec psec)
      | some psec, none => some psec
      | none, b => b := by
  induction parsed generalizing base with
  | nil => cases hb : assocGet base s <;> simp [mergeConfig, assocGet, hb]
  | cons hd t ih =>
      obtain ⟨s0, sec0⟩ := hd
      simp only [List.map_cons, List.nodup_cons] at h
      have ht0 : assocGet t s0 = none := assocGet_eq_none_of_not_mem t s0 h.1
      cases hb0 : assocGet base s0 with
      | some o =>
          have hstep : mergeConfig base ((s0, sec0) :: t) =
              mergeConfig (assocSet base s0 (dictUpdate o sec0)) t := by
            simp [mergeConfig, hb0]
          rw [hstep, ih _ h.2]
          by_cases hs : s = s0
          · subst hs
            simp [ht0, assocGet_assocSet, assocGet, hb0]
          · rw [assocGet_assocSet]
            simp only [hs, if_false]
            cases hp : assocGet t s <;> cases hb : assocGet base s <;>
              simp [assocGet, hs, hp, hb]
      | none =>
          have hstep : mergeConfig base ((s0, sec0) :: t) =
              mergeConfig (base ++ [(s0, sec0)]) t := by
            simp [mergeConfig, hb0]
          rw [hstep, ih _ h.2]
          by_cases hs : s = s0
          · subst hs
            simp [ht0, assocGet_append, assocGet, hb0]
          · rw [assocGet_append]
            cases hp : assocGet t s <;> cases hb : assocGet base s <;>
              simp [assocGet, hs, hp, hb]

-- Registration invariant helpers
-- ==============================

/-- The single-registration invariant: the registration block has run at
most once, and not at all while no shared registered state exists. -/
def regInvariant (st : ProcState) : Prop :=
  st.registrations ≤ 1 ∧ (st.shared = none → st.registrations = 0)

theorem project_init_preserves_invariant (fs : String → FileRead)
    (c : Option String) (st : ProcState) (h : regInvariant st) :
    regInvariant (project_init fs c st).2 := by
  obtain ⟨h1, h2⟩ := h
  cases hsh : st.shared with
  | some r => simp [project_init, hsh, regInvariant, h1]
  | none =>
      have h0 : st.registrations = 0 := h2 hsh
      cases c with
      | none => simp [project_init, hsh, regInvariant, h0]
      | some p =>
          cases hpc : parse_config p (fs p) with
          | error e => simp [project_init, hsh, hpc, regInvariant, h0]
          | ok conf =>
              cases hd : deriveDomain (mergeConfig Project.config conf) with
              | error e => simp [project_init, hsh, hpc, hd, regInvariant, h0]
              | ok dom => simp [project_init, hsh, hpc, hd, regInvariant, h0]

theorem runInits_invariant (fs : String → FileRead) (calls : List (Option String)) :
    ∀ st : ProcState, regInvariant st → regInvariant (runInits fs calls st) := by
  induction calls with
  | nil => exact fun st h => h
  | cons c rest ih =>
      intro st h
      exact ih _ (project_init_preserves_invariant fs c st h)

end Flasker

set_option maxRecDepth 8000

namespace Flasker

-- Claim theorems
-- ==============

/-- C1: when the token validates but the resolved email is not a key of the
user directory, catch_token leaves the login session unchanged, records
exactly one warning naming the rejected email, and responds with the
sign-in prompt rendered around a fresh authorization URL. -/
theorem catch_token_unauthorized_no_session (ctx : Ctx) (P : Provider)
    (dir : UserDir) (args : Args) (session : Option String) (token email : String)
    (htok : assocGet args "access_token" = some token)
    (hval : validate_token P token = true)
    (hemail : assocGet (P.userinfo token) "email" = some email)
    (hdir : User.get_from_id dir email = none) :
    (catch_token ctx P dir args session).session = session ∧
    (catch_token ctx P dir args session).warnings = [email ++ " tried to sign in."] ∧
    (catch_token ctx P dir args session).outcome =
      .ok (.render "sign_in_out.html" "Unauthorized" "warning"
        (get_google_login_url ctx args)) := by
  simp [catch_token, htok, hval, get_user_info_from_token, hemail, hdir]

/-- Witness: a concrete unauthorized sign-in attempt. -/
theorem catch_token_unauthorized_no_session_witness :
    validate_token ⟨fun _ => [], fun _ => [("email", "eve@x.com")]⟩ "tok" = true ∧
    ((catch_token ⟨"http://h/", "cid"⟩ ⟨fun _ => [], fun _ => [("email", "eve@x.com")]⟩
        (User.populate ["alice@x.com"]) [("access_token", "tok")] none).session = none ∧
     (catch_token ⟨"http://h/", "cid"⟩ ⟨fun _ => [], fun _ => [("email", "eve@x.com")]⟩
        (User.populate ["alice@x.com"]) [("access_token", "tok")] none).warnings =
       ["eve@x.com" ++ " tried to sign in."] ∧
     (catch_token ⟨"http://h/", "cid"⟩ ⟨fun _ => [], fun _ => [("email", "eve@x.com")]⟩
        (User.populate ["alice@x.com"]) [("access_token", "tok")] none).outcome =
       .ok (.render "sign_in_out.html" "Unauthorized" "warning"
         (get_google_login_url ⟨"http://h/", "cid"⟩ [("access_token", "tok")]))) :=
  ⟨by decide,
   catch_token_unauthorized_no_session ⟨"http://h/", "cid"⟩
     ⟨fun _ => [], fun _ => [("email", "eve@x.com")]⟩
     (User.populate ["alice@x.com"]) [("access_token", "tok")] none "tok" "eve@x.com"
     (by decide) (by decide) (by decide) (by decide)⟩

/-- C2: when the token-info response carries an error key, catch_token
leaves the session unchanged, issues only the token-info round trip (no
user-info call of any kind), and responds with the sign-in prompt rendered
around a fresh authorization URL. -/
theorem catch_token_invalid_short_circuit (ctx : Ctx) (P : Provider)
    (dir : UserDir) (args : Args) (session : Option String) (token : String)
    (htok : assocGet args "access_token" = some token)
    (herr : "error" ∈ P.tokeninfoKeys token) :
    (catch_token ctx P dir args session).session = session ∧
    (catch_token ctx P dir args session).calls = [NetCall.tokeninfo token] ∧
    (∀ t2, NetCall.userinfo t2 ∉ (catch_token ctx P dir args session).calls) ∧
    (catch_token ctx P dir args session).outcome =
      .ok (.render "sign_in_out.html" "Invalid token" "danger"
        (get_google_login_url ctx args)) := by
  have hval : validate_token P token = false := by simp [validate_token, herr]
  simp [catch_token, htok, hval]

/-- Witness: a concrete capture of a token the provider rejects. -/
theorem catch_token_invalid_short_circuit_witness :
    "error" ∈ Provider.tokeninfoKeys ⟨fun _ => ["error"], fun _ => []⟩ "tok" ∧
    ((catch_token ⟨"http://h/", "cid"⟩ ⟨fun _ => ["error"], fun _ => []⟩
        (User.populate ["alice@x.com"]) [("access_token", "tok")] none).session = none ∧
     (catch_token ⟨"http://h/", "cid"⟩ ⟨fun _ => ["error"], fun _ => []⟩
        (User.populate ["alice@x.com"]) [("access_token", "tok")] none).calls =
       [NetCall.tokeninfo "tok"] ∧
     (∀ t2, NetCall.userinfo t2 ∉
        (catch_token ⟨"http://h/", "cid"⟩ ⟨fun _ => ["error"], fun _ => []⟩
          (User.populate ["alice@x.com"]) [("access_token", "tok")] none).calls) ∧
     (catch_token ⟨"http://h/", "cid"⟩ ⟨fun _ => ["error"], fun _ => []⟩
        (User.populate ["alice@x.com"]) [("access_token", "tok")] none).outcome =
       .ok (.render "sign_in_out.html" "Invalid token" "danger"
         (get_google_login_url ⟨"http://h/", "cid"⟩ [("access_token", "tok")]))) :=
  ⟨by decide,
   catch_token_invalid_short_circuit ⟨"http://h/", "cid"⟩
     ⟨fun _ => ["error"], fun _ => []⟩
     (User.populate ["alice@x.com"]) [("access_token", "tok")] none "tok"
     (by decide) (by decide)⟩

/-- C3 counterexample: a valid token for an authorized email, captured by a
request that carries no state parameter, makes catch_token raise
BadRequestKeyError instead of redirecting to the root path. -/
theorem catch_token_missing_state_counterexample :
    (catch_token ⟨"u/", "c"⟩ ⟨fun _ => [], fun _ => [("email", "a@x.com")]⟩
        (User.populate ["a@x.com"]) [("access_token", "t")] none).outcome =
      .error (.badRequestKeyError "state") ∧
    (catch_token ⟨"u/", "c"⟩ ⟨fun _ => [], fun _ => [("email", "a@x.com")]⟩
        (User.populate ["a@x.com"]) [("access_token", "t")] none).outcome ≠
      .ok (.redirectTo "/") := by
  decide

/-- C3 amended: when the token validates and the email is authorized,
catch_token signs the user in (audit entry included) and redirects to the
state value of the request when that parameter is present; when state is absent
the handler raises BadRequestKeyError, the session having already been
established, instead of redirecting to the root path. -/
theorem catch_token_authorized_redirect (ctx : Ctx) (P : Provider)
    (dir : UserDir) (args : Args) (session : Option String)
    (token email : String) (user : User)
    (htok : assocGet args "access_token" = some token)
    (hval : validate_token P token = true)
    (hemail : assocGet (P.userinfo token) "email" = some email)
    (hdir : User.get_from_id dir email = some user) :
    (catch_token ctx P dir args session).session = some user.id ∧
    (catch_token ctx P dir args session).audits = ["Signed in."] ∧
    (∀ st, assocGet args "state" = some st →
      (catch_token ctx P dir args session).outcome = .ok (.redirectTo st)) ∧
    (assocGet args "state" = none →
      (catch_token ctx P dir args session).outcome =
        .error (.badRequestKeyError "state")) := by
  cases hst : assocGet args "state" <;>
    simp [catch_token, htok, hval, get_user_info_from_token, hemail, hdir, hst]

/-- Witness: a concrete authorized sign-in with state present. -/
theorem catch_token_authorized_redirect_witness :
    User.get_from_id (User.populate ["a@x.com"]) "a@x.com" = some (User.mk "a@x.com") ∧
    ((catch_token ⟨"u/", "c"⟩ ⟨fun _ => [], fun _ => [("email", "a@x.com")]⟩
        (User.populate ["a@x.com"]) [("access_token", "t"), ("state", "/home")]
        none).session = some (User.mk "a@x.com").id ∧
     (catch_token ⟨"u/", "c"⟩ ⟨fun _ => [], fun _ => [("email", "a@x.com")]⟩
        (User.populate ["a@x.com"]) [("access_token", "t"), ("state", "/home")]
        none).audits = ["Signed in."] ∧
     (∀ st, assocGet [("access_token", "t"), ("state", "/home")] "state" = some st →
       (catch_token ⟨"u/", "c"⟩ ⟨fun _ => [], fun _ => [("email", "a@x.com")]⟩
          (User.populate ["a@x.com"]) [("access_token", "t"), ("state", "/home")]
          none).outcome = .ok (.redirectTo st)) ∧
     (assocGet [("access_token", "t"), ("state", "/home")] "state" = none →
       (catch_token ⟨"u/", "c"⟩ ⟨fun _ => [], fun _ => [("email", "a@x.com")]⟩
          (User.populate ["a@x.com"]) [("access_token", "t"), ("state", "/home")]
          none).outcome = .error (.badRequestKeyError "state"))) :=
  ⟨by decide,
   catch_token_authorized_redirect ⟨"u/", "c"⟩
     ⟨fun _ => [], fun _ => [("email", "a@x.com")]⟩
     (User.populate ["a@x.com"]) [("access_token", "t"), ("state", "/home")] none
     "t" "a@x.com" (User.mk "a@x.com")
     (by decide) (by decide) (by decide) (by decide)⟩

/-- C9: sign-out with no authenticated session performs no logout and emits
no audit entry, leaves the session state unchanged, and renders the same
goodbye prompt, fresh authorization URL included, that an authenticated
sign-out renders. -/
theorem sign_out_no_session_noop (ctx : Ctx) (args : Args) :
    (sign_out ctx args none).session = none ∧
    (sign_out ctx args none).audits = [] ∧
    (sign_out ctx args none).warnings = [] ∧
    (sign_out ctx args none).outcome =
      .ok (.render "sign_in_out.html" "Goodbye" "success"
        (get_google_login_url ctx args)) ∧
    (∀ u : String, (sign_out ctx args (some u)).outcome =
      (sign_out ctx args none).outcome) := by
  simp [sign_out]

/-- C10: a token-capture request without the access_token parameter fails
with BadRequestKeyError before any outbound call is issued and leaves the
session unchanged. -/
theorem catch_token_missing_token_no_calls (ctx : Ctx) (P : Provider)
    (dir : UserDir) (args : Args) (session : Option String)
    (htok : assocGet args "access_token" = none) :
    (catch_token ctx P dir args session).calls = [] ∧
    (catch_token ctx P dir args session).session = session ∧
    (catch_token ctx P dir args session).outcome =
      .error (.badRequestKeyError "access_token") := by
  simp [catch_token, htok]

/-- Witness: a concrete capture request with no access_token parameter. -/
theorem catch_token_missing_token_no_calls_witness :
    assocGet [("state", "/")] "access_token" = none ∧
    ((catch_token ⟨"u/", "c"⟩ ⟨fun _ => [], fun _ => []⟩ (User.populate [])
        [("state", "/")] none).calls = [] ∧
     (catch_token ⟨"u/", "c"⟩ ⟨fun _ => [], fun _ => []⟩ (User.populate [])
        [("state", "/")] none).session = none ∧
     (catch_token ⟨"u/", "c"⟩ ⟨fun _ => [], fun _ => []⟩ (User.populate [])
        [("state", "/")] none).outcome =
       .error (.badRequestKeyError "access_token")) :=
  ⟨by decide,
   catch_token_missing_token_no_calls ⟨"u/", "c"⟩ ⟨fun _ => [], fun _ => []⟩
     (User.populate []) [("state", "/")] none (by decide)⟩

/-- C4: the directory populated from a comma-separated authorized-emails
value answers lookups exactly on the listed emails, case-sensitively, and
the value a@x.com,b@x.com yields exactly those two users. -/
theorem populate_lookup_exact (v : String) :
    (∀ e, e ∈ authorizedList v →
      User.get_from_id (User.populate (authorizedList v)) e = some (User.mk e)) ∧
    (∀ e, e ∉ authorizedList v →
      User.get_from_id (User.populate (authorizedList v)) e = none) ∧
    (User.populate (authorizedList "a@x.com,b@x.com")).map Prod.fst =
      ["a@x.com", "b@x.com"] := by
  refine ⟨fun e he => ?_, fun e he => ?_, by decide⟩
  · simp [User.get_from_id, assocGet_populate, he]
  · simp [User.get_from_id, assocGet_populate, he]

/-- Witness: a member lookup and a non-member lookup on the documented
scenario value. -/
theorem populate_lookup_exact_witness :
    "a@x.com" ∈ authorizedList "a@x.com,b@x.com" ∧
    User.get_from_id (User.populate (authorizedList "a@x.com,b@x.com")) "a@x.com" =
      some (User.mk "a@x.com") :=
  ⟨by decide,
   (populate_lookup_exact "a@x.com,b@x.com").1 "a@x.com" (by decide)⟩

/-- C6: the authorization URL is the provider endpoint with the
urlencoded parameter list; it always carries response_type=token, echoes
the next parameter of the request, quote_plus-encoded, as state, and state
falls back to the root path when next is absent. -/
theorem authorization_url_shape (ctx : Ctx) (args : Args) :
    (get_google_login_url ctx args =
      OAuth.ENDPOINTS_get_token_or_code ++ "?"
        ++ "scope=" ++ quote_plus OAuth.SCOPES_email
        ++ "&redirect_uri=" ++ quote_plus (ctx.urlRoot ++ "oauth2callback")
        ++ "&response_type=token"
        ++ "&state=" ++ quote_plus ((assocGet args "next").getD "/")
        ++ "&client_id=" ++ quote_plus ctx.clientId) ∧
    (assocGet args "next" = none → (assocGet args "next").getD "/" = "/") := by
  constructor
  · simp only [get_google_login_url, get_params, urlencode, String.append_assoc]
    rfl
  · intro h
    rw [h]
    rfl

/-- C5 counterexample: a readable configuration file whose PROJECT section
lacks the NAME key makes _parse_config raise KeyError, not the
ProjectImportError the claim calls ConfigError. -/
theorem parse_config_missing_name_counterexample :
    parse_config "conf.cfg" (.content [("PROJECT", [("DOMAIN", "x")])]) =
      .error (.keyError "NAME") ∧
    ¬ ∃ m, parse_config "conf.cfg" (.content [("PROJECT", [("DOMAIN", "x")])]) =
      .error (.projectImportError m) := by
  have h1 : parse_config "conf.cfg" (.content [("PROJECT", [("DOMAIN", "x")])]) =
      .error (.keyError "NAME") := by decide
  refine ⟨h1, ?_⟩
  rintro ⟨m, hm⟩
  rw [h1] at hm
  simp at hm

/-- C5 amended: initialization fails with ProjectImportError, registering
no project, when the file cannot be opened or when PROJECT.NAME is present
but falsy; a file whose PROJECT section or NAME key is missing fails with
KeyError instead (still registering no project, per the counterexample). -/
theorem parse_config_failure_modes (fs : String → FileRead) (st : ProcState)
    (p : String) (hunreg : st.shared = none) :
    (fs p = .unreadable →
      (project_init fs (some p) st).1 =
        .error (.projectImportError
          ("Unable to parse configuration file at " ++ p ++ ".")) ∧
      (project_init fs (some p) st).2.shared = none) ∧
    (∀ secs proj name,
      fs p = .content secs →
      assocGet (convertSections secs) "PROJECT" = some proj →
      assocGet proj "NAME" = some name →
      name.truthy = false →
      (project_init fs (some p) st).1 =
        .error (.projectImportError "Missing project name.") ∧
      (project_init fs (some p) st).2.shared = none) := by
  constructor
  · intro hfs
    simp [project_init, hunreg, hfs, parse_config]
  · intro secs proj name hfs hproj hname htr
    simp [project_init, hunreg, hfs, parse_config, hproj, hname, htr]

/-- Witness: a readable file carrying an empty NAME fails with the
missing-name ProjectImportError and registers nothing. -/
theorem parse_config_failure_modes_witness :
    initialProcState.shared = none ∧
    ((project_init (fun _ => .content [("PROJECT", [("NAME", "")])]) (some "c.cfg")
        initialProcState).1 =
      .error (.projectImportError "Missing project name.") ∧
     (project_init (fun _ => .content [("PROJECT", [("NAME", "")])]) (some "c.cfg")
        initialProcState).2.shared = none) :=
  ⟨by decide,
   (parse_config_failure_modes (fun _ => .content [("PROJECT", [("NAME", "")])])
      initialProcState "c.cfg" (by decide)).2
     [("PROJECT", [("NAME", "")])] [("NAME", ConfValue.s "")] (ConfValue.s "")
     rfl (by decide) (by decide) (by decide)⟩

/-- C7: the registration merge is per key: a key in a parsed section
overrides the default, a default key the file leaves out keeps its value,
and a section unknown to the defaults is adopted wholesale. -/
theorem merge_defaults_per_key (parsed : Config)
    (hsec : (parsed.map Prod.fst).Nodup) (s k : String) :
    (∀ psec bsec, assocGet parsed s = some psec →
      assocGet Project.config s = some bsec →
      (psec.map Prod.fst).Nodup →
      (∀ v, assocGet psec k = some v →
        configGet (mergeConfig Project.config parsed) s k = some v) ∧
      (assocGet psec k = none →
        configGet (mergeConfig Project.config parsed) s k = assocGet bsec k)) ∧
    (∀ psec, assocGet parsed s = some psec → assocGet Project.config s = none →
      assocGet (mergeConfig Project.config parsed) s = some psec) ∧
    (assocGet parsed s = none →
      assocGet (mergeConfig Project.config parsed) s = assocGet Project.config s) := by
  have hmain := assocGet_mergeConfig parsed Project.config s hsec
  refine ⟨fun psec bsec hp hb hnod => ?_, fun psec hp hb => ?_, fun hp => ?_⟩
  · rw [hp, hb] at hmain
    constructor
    · intro v hv
      simp [configGet, hmain, assocGet_dictUpdate _ _ _ hnod, hv]
    · intro hv
      simp [configGet, hmain, assocGet_dictUpdate _ _ _ hnod, hv]
  · rw [hp, hb] at hmain
    exact hmain
  · rw [hp] at hmain
    cases hb : assocGet Project.config s <;> rw [hb] at hmain <;> exact hmain

/-- Witness: a parsed ENGINE.URL overrides the sqlite default after the
merge. -/
theorem merge_defaults_per_key_witness :
    assocGet [("ENGINE", [("URL", ConfValue.s "postgres://u")])] "ENGINE" =
      some [("URL", ConfValue.s "postgres://u")] ∧
    configGet
      (mergeConfig Project.config [("ENGINE", [("URL", ConfValue.s "postgres://u")])])
      "ENGINE" "URL" = some (ConfValue.s "postgres://u") :=
  ⟨by decide,
   ((merge_defaults_per_key [("ENGINE", [("URL", ConfValue.s "postgres://u")])]
       (by decide) "ENGINE" "URL").1
     [("URL", ConfValue.s "postgres://u")] [("URL", ConfValue.s "sqlite://")]
     (by decide) (by decide) (by decide)).1
     (ConfValue.s "postgres://u") (by decide)⟩

/-- C8: once a project is registered, a construction without a config path
and the thread-local current-project lookup both succeed, reuse the shared
registered state verbatim, and run no registration step; along any sequence
of constructions from a fresh process the registration block runs at most
once. -/
theorem single_registration (fs : String → FileRead) :
    (∀ st reg, st.shared = some reg →
      (project_init fs none st).1 = .ok () ∧
      (project_init fs none st).2.shared = some reg ∧
      (project_init fs none st).2.registrations = st.registrations) ∧
    (∀ st reg, st.shared = some reg →
      (get_current_project fs st).1 = .ok () ∧
      (get_current_project fs st).2.shared = some reg ∧
      (get_current_project fs st).2.registrations = st.registrations) ∧
    (∀ calls : List (Option String),
      (runInits fs calls initialProcState).registrations ≤ 1) := by
  refine ⟨fun st reg hreg => ?_, fun st reg hreg => ?_, fun calls => ?_⟩
  · simp [project_init, hreg]
  · by_cases hc : st.currentIsSet
    · simp [get_current_project, hc, hreg]
    · simp [get_current_project, hc, project_init, hreg]
  · exact (runInits_invariant fs calls initialProcState
      (by simp [regInvariant, initialProcState])).1

/-- Witness: with a registered state in place, a pathless construction is a
no-op on the shared state, and a short construction trace registers once. -/
theorem single_registration_witness :
    (({ shared := some { config := [], domain := ConfValue.s "" },
        currentIsSet := true, registrations := 1 } : ProcState).shared =
      some { config := [], domain := ConfValue.s "" }) ∧
    ((project_init (fun _ => .unreadable) none
        { shared := some { config := [], domain := ConfValue.s "" },
          currentIsSet := true, registrations := 1 }).1 = .ok () ∧
     (project_init (fun _ => .unreadable) none
        { shared := some { config := [], domain := ConfValue.s "" },
          currentIsSet := true, registrations := 1 }).2.shared =
       some { config := [], domain := ConfValue.s "" } ∧
     (project_init (fun _ => .unreadable) none
        { shared := some { config := [], domain := ConfValue.s "" },
          currentIsSet := true, registrations := 1 }).2.registrations =
       ({ shared := some { config := [], domain := ConfValue.s "" },
          currentIsSet := true, registrations := 1 } : ProcState).registrations) ∧
    (runInits (fun _ => .unreadable) [some "a", none, some "b"]
        initialProcState).registrations ≤ 1 :=
  ⟨by decide,
   (single_registration (fun _ => .unreadable)).1
     { shared := some { config := [], domain := ConfValue.s "" },
       currentIsSet := true, registrations := 1 }
     { config := [], domain := ConfValue.s "" } (by decide),
   (single_registration (fun _ => .unreadable)).2.2 [some "a", none, some "b"]⟩

/-- Witness: the full authorization URL for a concrete request with no
next parameter. -/
theorem authorization_url_shape_witness :
    (assocGet ([] : Args) "next" = none →
      (assocGet ([] : Args) "next").getD "/" = "/") ∧
    get_google_login_url ⟨"http://h/", "CID"⟩ [] =
      OAuth.ENDPOINTS_get_token_or_code ++ "?"
        ++ "scope=" ++ quote_plus OAuth.SCOPES_email
        ++ "&redirect_uri=" ++ quote_plus ("http://h/" ++ "oauth2callback")
        ++ "&response_type=token"
        ++ "&state=" ++ quote_plus ((assocGet ([] : Args) "next").getD "/")
        ++ "&client_id=" ++ quote_plus "CID" :=
  ⟨(authorization_url_shape ⟨"http://h/", "CID"⟩ []).2,
   (authorization_url_shape ⟨"http://h/", "CID"⟩ []).1⟩

end Flasker
